import Mathlib

/-!
Verification of the EduTrack prediction-and-risk engine (src/backend.py).

Python floats are modelled as exact rationals, Python ints as integers,
and Python strings as Lean strings.  A probability dictionary is an
association list from grade labels to rationals; `dictGet` models
`dict.get(key, 0.0)` and the Python truthiness test `if prob_map:` is
false for `None` and for an empty dictionary.
-/

namespace EduTrack

/-- The nine-field student metric vector taken by the backend functions
(attendance, marks, mst_marks, study_hours, assignments as percentages or
raw scores, extracurriculars as a score, the last three as counts). -/
structure Metrics where
  attendance : ℚ
  marks : ℚ
  mst_marks : ℚ
  study_hours : ℚ
  assignments : ℚ
  extracurriculars : ℚ
  projects : ℤ
  certifications : ℤ
  internships : ℤ
deriving DecidableEq

/-- `d.get(key, 0.0)` on a Python dictionary modelled as an association
list; the first binding of a key wins (keys of a Python dict are unique). -/
def dictGet : List (String × ℚ) → String → ℚ
  | [], _ => 0
  | (k, v) :: rest, key => if key = k then v else dictGet rest key

/-- The probability contribution block of `calculate_risk`
(src/backend.py lines 134-136): `if prob_map:` is Python truthiness, so it
runs only when the optional dictionary is present and non-empty, and then
adds `prob_map.get("D", 0.0) * 1.0 + prob_map.get("C", 0.0) * 0.5`. -/
def probTerm (prob_map : Option (List (String × ℚ))) : ℚ :=
  match prob_map with
  | some d => if !d.isEmpty then dictGet d "D" * 1.0 + dictGet d "C" * 0.5 else 0
  | none => 0

/-- The risk-level threshold expression of src/backend.py line 168:
`"Low" if risk < 0.4 else ("Medium" if risk < 0.7 else "High")`. -/
def risk_level (risk : ℚ) : String :=
  if risk < 0.4 then "Low" else if risk < 0.7 then "Medium" else "High"

/-- `calculate_risk` (src/backend.py lines 124-173).  The sequential
`risk += c` accumulations under each `if` are rendered as a sum of guarded
terms in the same order, and the `tips.append` calls as a concatenation of
guarded singleton lists in the same order.  Returns (risk, level, tips). -/
def calculate_risk (m : Metrics) (prob_map : Option (List (String × ℚ))) :
    ℚ × String × List String :=
  let risk : ℚ :=
    probTerm prob_map
    + (if m.attendance < 75 then (0.20 : ℚ) else 0)
    + (if m.marks < 60 then (0.25 : ℚ) else 0)
    + (if m.mst_marks < 16 then (0.20 : ℚ) else 0)
    + (if m.study_hours < 8 then (0.10 : ℚ) else 0)
    + (if m.assignments < 60 then (0.15 : ℚ) else 0)
    + (if m.extracurriculars < 2 then (0.05 : ℚ) else 0)
    + (if m.projects = 0 then (0.10 : ℚ) else 0)
    + (if m.certifications = 0 then (0.08 : ℚ) else 0)
    + (if m.internships = 0 then (0.07 : ℚ) else 0)
  let tips : List String :=
    (if m.attendance < 75 then ["Improve attendance to at least 85% for better outcomes."] else [])
    ++ (if m.marks < 60 then ["Focus on core subjects to raise marks above 70%."] else [])
    ++ (if m.mst_marks < 16 then ["MST performance is low. Schedule revision sessions weekly."] else [])
    ++ (if m.study_hours < 8 then ["Increase study hours to at least 12-15 hours per week."] else [])
    ++ (if m.assignments < 60 then ["Complete and revise assignments to boost score."] else [])
    ++ (if m.extracurriculars < 2 then ["Engage in extracurricular activities for balance."] else [])
    ++ (if m.projects = 0 then ["Complete project work to enhance practical skills."] else [])
    ++ (if m.certifications = 0 then ["Earn certifications to boost your profile."] else [])
    ++ (if m.internships = 0 then ["Consider internship opportunities for industry experience."] else [])
  let risk := min (max risk 0) 1
  let level := risk_level risk
  let tips :=
    if tips.isEmpty then ["Great job! Maintain consistency to keep your performance high."] else tips
  (risk, level, tips)

/-- `generate_recommendation` (src/backend.py lines 175-203): nine guarded
directives accumulated in declaration order, joined by " | ", or a fixed
affirmation string when the list stays empty. -/
def generate_recommendation (m : Metrics) : String :=
  let recs : List String :=
    (if m.attendance < 75 then ["Improve attendance"] else [])
    ++ (if m.marks < 70 then ["Focus on marks"] else [])
    ++ (if m.mst_marks < 16 then ["Boost MST prep"] else [])
    ++ (if m.study_hours < 10 then ["Increase study time"] else [])
    ++ (if m.assignments < 70 then ["Complete assignments"] else [])
    ++ (if m.extracurriculars < 2 then ["Join activities"] else [])
    ++ (if m.projects = 0 then ["Work on projects"] else [])
    ++ (if m.certifications = 0 then ["Earn certifications"] else [])
    ++ (if m.internships = 0 then ["Pursue internships"] else [])
  if recs.isEmpty then "Maintain current performance - you\x27re excelling!"
  else String.intercalate " | " recs

/-- The trained classifier singleton: its ordered label set `_CLASSES` and
its `predict_proba` function on a single nine-feature row.  The concrete
random-forest internals live in the external ML library, so the model is
abstracted to its interface; theorems that need its guarantees (label set,
distribution output) take them as explicit hypotheses. -/
structure Model where
  classes : List String
  proba : List ℚ → List ℚ

/-- The process environment seen by `_ensure_model`: loading the persisted
artifact and training on the synthetic dataset are both external,
deterministic-for-a-fixed-disk-state operations, abstracted as the model
that a first initialization produces. -/
structure Env where
  initModel : Model

/-- `_ensure_model` (src/backend.py lines 52-66) acting on the `_MODEL`
global: returns the cached model if present, otherwise installs the
load-or-train result.  Returns (model used, new global state). -/
def ensure_model (env : Env) : Option Model → Model × Option Model
  | some mdl => (mdl, some mdl)
  | none => (env.initModel, some env.initModel)

/-- The single feature row built by `predict_grade` (src/backend.py lines
115-117), with `mst_normalized = mst_marks / 40.0 * 100.0`. -/
def featureRow (m : Metrics) : List ℚ :=
  [m.attendance, m.marks, m.mst_marks / 40.0 * 100.0, m.study_hours, m.assignments,
   m.extracurriculars, (m.projects : ℚ), (m.certifications : ℚ), (m.internships : ℚ)]

/-- Helper for `np.argmax`: scans the remaining list, keeping the index of
the first strictly greatest element seen so far. -/
def argmaxAux : List ℚ → ℕ → ℚ → ℕ → ℕ
  | [], best, _, _ => best
  | x :: xs, best, v, i => if v < x then argmaxAux xs i x (i + 1) else argmaxAux xs best v (i + 1)

/-- `int(np.argmax(probs))`: index of the first occurrence of the maximum
(0 on an empty list). -/
def argmaxIdx : List ℚ → ℕ
  | [] => 0
  | x :: xs => argmaxAux xs 0 x 1

/-- `predict_grade` (src/backend.py lines 103-122): ensures the model,
runs `predict_proba` on the feature row, takes the argmax label, and zips
labels with probabilities into the probability dictionary.  Returns
((grade, probability map), new global model state). -/
def predict_grade (env : Env) (st : Option Model) (m : Metrics) :
    (String × List (String × ℚ)) × Option Model :=
  let (mdl, st') := ensure_model env st
  let probs := mdl.proba (featureRow m)
  let pred_idx := argmaxIdx probs
  let pred_label := mdl.classes.getD pred_idx ""
  let prob_map := mdl.classes.zip probs
  ((pred_label, prob_map), st')

/-- The draw interface of `np.random`: `default_rng(seed)` yields a
generator state, and each sampling call consumes and returns state.  All
fields are functions, so every draw is determined by the seed and the
call sequence, which is the documented numpy contract. -/
structure NumpyApi : Type 1 where
  R : Type
  default_rng : ℤ → R
  uniform : R → ℚ → ℚ → ℕ → List ℚ × R
  integers : R → ℤ → ℤ → ℕ → List ℤ × R
  normal : R → ℚ → ℚ → ℕ → List ℚ × R

/-- The label masks of src/backend.py lines 41-45: score≥85 is A,
[70,85) is B, [55,70) is C, below 55 is D (the masks partition ℚ). -/
def label_of_score (s : ℚ) : String :=
  if 85 ≤ s then "A" else if 70 ≤ s then "B" else if 55 ≤ s then "C" else "D"

/-- `_generate_synthetic_dataset` (src/backend.py lines 14-50): the fixed
sequence of draws from the seeded generator, the composite weighted score,
Gaussian noise, clipping to [0,100], threshold labels, and the column
stack of the nine feature columns into n rows. -/
def _generate_synthetic_dataset (api : NumpyApi) (n : ℕ) (seed : ℤ) :
    List (List ℚ) × List String :=
  let r0 := api.default_rng seed
  let (attendance, r1) := api.uniform r0 50 100 n
  let (marks, r2) := api.uniform r1 30 100 n
  let (mstRaw, r3) := api.uniform r2 0 40 n
  let mst := mstRaw.map (fun x => x / 40.0 * 100.0)
  let (study_hours, r4) := api.uniform r3 0 40 n
  let (assignments, r5) := api.uniform r4 30 100 n
  let (extracurriculars, r6) := api.integers r5 0 11 n
  let (projects, r7) := api.integers r6 0 6 n
  let (certifications, r8) := api.integers r7 0 5 n
  let (internships, r9) := api.integers r8 0 3 n
  let score := (List.range n).map (fun i =>
    marks.getD i 0 * 0.30 + attendance.getD i 0 * 0.15 + mst.getD i 0 * 0.25
    + study_hours.getD i 0 / 40.0 * 100.0 * 0.10
    + assignments.getD i 0 / 100.0 * 100.0 * 0.05
    + ((extracurriculars.getD i 0 : ℚ) / 10.0) * 100.0 * 0.05
    + ((projects.getD i 0 : ℚ) / 5.0) * 100.0 * 0.05
    + ((certifications.getD i 0 : ℚ) / 4.0) * 100.0 * 0.03
    + ((internships.getD i 0 : ℚ) / 2.0) * 100.0 * 0.02)
  let (noise, _) := api.normal r9 0 5 n
  let clipped := (List.range n).map (fun i => min (max (score.getD i 0 + noise.getD i 0) 0) 100)
  let labels := clipped.map label_of_score
  let X := (List.range n).map (fun i =>
    [attendance.getD i 0, marks.getD i 0, mst.getD i 0, study_hours.getD i 0,
     assignments.getD i 0, (extracurriculars.getD i 0 : ℚ), (projects.getD i 0 : ℚ),
     (certifications.getD i 0 : ℚ), (internships.getD i 0 : ℚ)])
  (X, labels)

/-- Modelled from the spec rule table in section 4.3: the unclamped sum of
the probability contribution (P(D)·1.0 + P(C)·0.5 when a map is supplied)
and the nine guarded threshold contributions, in table order. -/
def specRiskTotal (m : Metrics) (prob_map : Option (List (String × ℚ))) : ℚ :=
  (match prob_map with
   | some d => dictGet d "D" * 1.0 + dictGet d "C" * 0.5
   | none => 0)
  + (if m.attendance < 75 then (0.20 : ℚ) else 0)
  + (if m.marks < 60 then (0.25 : ℚ) else 0)
  + (if m.mst_marks < 16 then (0.20 : ℚ) else 0)
  + (if m.study_hours < 8 then (0.10 : ℚ) else 0)
  + (if m.assignments < 60 then (0.15 : ℚ) else 0)
  + (if m.extracurriculars < 2 then (0.05 : ℚ) else 0)
  + (if m.projects = 0 then (0.10 : ℚ) else 0)
  + (if m.certifications = 0 then (0.08 : ℚ) else 0)
  + (if m.internships = 0 then (0.07 : ℚ) else 0)

/-- Modelled from the spec, section 4.3: the tip strings of exactly the
threshold rules that fire, in table order. -/
def specFiredTips (m : Metrics) : List String :=
  (if m.attendance < 75 then ["Improve attendance to at least 85% for better outcomes."] else [])
  ++ (if m.marks < 60 then ["Focus on core subjects to raise marks above 70%."] else [])
  ++ (if m.mst_marks < 16 then ["MST performance is low. Schedule revision sessions weekly."] else [])
  ++ (if m.study_hours < 8 then ["Increase study hours to at least 12-15 hours per week."] else [])
  ++ (if m.assignments < 60 then ["Complete and revise assignments to boost score."] else [])
  ++ (if m.extracurriculars < 2 then ["Engage in extracurricular activities for balance."] else [])
  ++ (if m.projects = 0 then ["Complete project work to enhance practical skills."] else [])
  ++ (if m.certifications = 0 then ["Earn certifications to boost your profile."] else [])
  ++ (if m.internships = 0 then ["Consider internship opportunities for industry experience."] else [])

/-- Modelled from the spec, section 4.4: the directive phrases of exactly
the triggered recommendation rules, in declaration order. -/
def specRecList (m : Metrics) : List String :=
  (if m.attendance < 75 then ["Improve attendance"] else [])
  ++ (if m.marks < 70 then ["Focus on marks"] else [])
  ++ (if m.mst_marks < 16 then ["Boost MST prep"] else [])
  ++ (if m.study_hours < 10 then ["Increase study time"] else [])
  ++ (if m.assignments < 70 then ["Complete assignments"] else [])
  ++ (if m.extracurriculars < 2 then ["Join activities"] else [])
  ++ (if m.projects = 0 then ["Work on projects"] else [])
  ++ (if m.certifications = 0 then ["Earn certifications"] else [])
  ++ (if m.internships = 0 then ["Pursue internships"] else [])

/-- Pointwise order on metric vectors; increasing a single field with the
other eight held fixed is a special case. -/
def metricsLE (m m' : Metrics) : Prop :=
  m.attendance ≤ m'.attendance ∧ m.marks ≤ m'.marks ∧ m.mst_marks ≤ m'.mst_marks ∧
  m.study_hours ≤ m'.study_hours ∧ m.assignments ≤ m'.assignments ∧
  m.extracurriculars ≤ m'.extracurriculars ∧ m.projects ≤ m'.projects ∧
  m.certifications ≤ m'.certifications ∧ m.internships ≤ m'.internships

/-- Scenario 3 of the spec: every threshold sits exactly at its boundary. -/
def boundaryVec : Metrics := ⟨75, 60, 16, 8, 60, 2, 1, 1, 1⟩

/-- Scenario 1 of the spec: an excellent student vector. -/
def excellentVec : Metrics := ⟨90, 85, 30, 15, 90, 5, 2, 1, 1⟩

/-- A legitimate four-class probability distribution that puts all mass on
grade D. -/
def allDMap : List (String × ℚ) := [("A", 0), ("B", 0), ("C", 0), ("D", 1)]

/-- A legitimate four-class probability distribution concentrated on
grade A, whose risk contribution stays far below 0.7. -/
def goodMap : List (String × ℚ) := [("A", 0.9), ("B", 0.05), ("C", 0.04), ("D", 0.01)]

/-- A four-class model with constant uniform output, used to instantiate
universally quantified theorems about the classifier wrapper. -/
def constModel : Model := ⟨["A", "B", "C", "D"], fun _ => [0.25, 0.25, 0.25, 0.25]⟩

/-- An environment whose load-or-train step yields `constModel`. -/
def constEnv : Env := ⟨constModel⟩

/-- A degenerate draw interface with unit state and all-zero samples, used
to instantiate universally quantified theorems about the generator. -/
def constApi : NumpyApi where
  R := Unit
  default_rng := fun _ => ()
  uniform := fun _ lo _ k => (List.replicate k lo, ())
  integers := fun _ _ _ k => (List.replicate k 0, ())
  normal := fun _ _ _ k => (List.replicate k 0, ())

lemma probTerm_eq_spec (pm : Option (List (String × ℚ))) :
    probTerm pm =
      match pm with
      | some d => dictGet d "D" * 1.0 + dictGet d "C" * 0.5
      | none => 0 := by
  match pm with
  | none => rfl
  | some [] => simp [probTerm, dictGet]
  | some (p :: rest) => simp [probTerm]

lemma guard_eq_nil {c : Prop} [Decidable c] (x : String) :
    ((if c then [x] else []) = ([] : List String)) ↔ ¬c := by
  split <;> simp_all

lemma guard_length_le_one (c : Prop) [Decidable c] (x : String) :
    ((if c then [x] else []) : List String).length ≤ 1 := by
  split <;> simp

lemma ite_thr_anti {x x' c : ℚ} (θ : ℚ) (hc : 0 ≤ c) (h : x ≤ x') :
    (if x' < θ then c else 0) ≤ (if x < θ then c else 0) := by
  split_ifs with h1 h2
  · exact le_rfl
  · exact absurd (lt_of_le_of_lt h h1) h2
  · exact hc
  · exact le_rfl

lemma ite_zero_anti {x x' : ℤ} {c : ℚ} (hc : 0 ≤ c) (h0 : 0 ≤ x) (h : x ≤ x') :
    (if x' = 0 then c else 0) ≤ (if x = 0 then c else 0) := by
  split_ifs with h1 h2
  · exact le_rfl
  · exact absurd (by omega : x = 0) h2
  · exact hc
  · exact le_rfl

lemma argmaxAux_lt (xs : List ℚ) :
    ∀ (best : ℕ) (v : ℚ) (i : ℕ), best < i → argmaxAux xs best v i < i + xs.length := by
  induction xs with
  | nil => intro best v i hb; simpa [argmaxAux] using hb
  | cons x xs ih =>
    intro best v i hb
    simp only [argmaxAux]
    split
    · have := ih i x (i + 1) (Nat.lt_succ_self i)
      simpa [Nat.add_comm, Nat.add_left_comm, Nat.add_assoc] using Nat.lt_of_lt_of_le this (by omega)
    · have := ih best v (i + 1) (Nat.lt_of_lt_of_le hb (Nat.le_succ i))
      exact Nat.lt_of_lt_of_le this (by simp; omega)

lemma argmaxIdx_lt (l : List ℚ) (h : l ≠ []) : argmaxIdx l < l.length := by
  match l, h with
  | x :: xs, _ =>
    have := argmaxAux_lt xs 0 x 1 Nat.one_pos
    simpa [argmaxIdx, Nat.add_comm] using this

/-- C1: for every metric vector and optional probability map,
`calculate_risk` returns a risk score equal to the sum of the applicable
rule contributions (the probability term plus the nine guarded threshold
contributions) clamped to [0,1]; the score always lies in [0,1], and on
the scenario-2 vector where every rule fires it clamps to exactly 1. -/
theorem calculate_risk_clamped_sum (m : Metrics) (pm : Option (List (String × ℚ))) :
    (calculate_risk m pm).1 = min (max (specRiskTotal m pm) 0) 1 ∧
    0 ≤ (calculate_risk m pm).1 ∧ (calculate_risk m pm).1 ≤ 1 ∧
    (calculate_risk ⟨50, 40, 5, 2, 30, 0, 0, 0, 0⟩ none).1 = 1 := by
  refine ⟨?_, ?_, ?_, ?_⟩
  · simp only [calculate_risk, specRiskTotal, probTerm_eq_spec]
  · simp only [calculate_risk]
    exact le_min (le_max_right _ _) zero_le_one
  · simp only [calculate_risk]
    exact min_le_right _ _
  · norm_num [calculate_risk, probTerm, risk_level]

/-- C2: the risk level returned by `calculate_risk` is the strict
deterministic threshold function of the returned risk score: Low iff
risk < 0.4, Medium iff 0.4 ≤ risk < 0.7, High iff risk ≥ 0.7; in
particular level(0.39)=Low, level(0.40)=Medium, level(0.69)=Medium,
level(0.70)=High. -/
theorem risk_level_partition :
    (∀ (m : Metrics) (pm : Option (List (String × ℚ))),
        (calculate_risk m pm).2.1 = risk_level (calculate_risk m pm).1) ∧
    (∀ r : ℚ,
        (risk_level r = "Low" ↔ r < 0.4) ∧
        (risk_level r = "Medium" ↔ 0.4 ≤ r ∧ r < 0.7) ∧
        (risk_level r = "High" ↔ 0.7 ≤ r)) ∧
    risk_level 0.39 = "Low" ∧ risk_level 0.40 = "Medium" ∧
    risk_level 0.69 = "Medium" ∧ risk_level 0.70 = "High" := by
  refine ⟨fun m pm => rfl, fun r => ⟨?_, ?_, ?_⟩, ?_, ?_, ?_, ?_⟩
  · unfold risk_level
    split_ifs with h1 h2 <;> simp_all
  · unfold risk_level
    split_ifs with h1 h2 <;> simp_all
  · unfold risk_level
    split_ifs with h1 h2 <;> simp_all
    linarith
  · norm_num [risk_level]
  · norm_num [risk_level]
  · norm_num [risk_level]
  · norm_num [risk_level]

/-- C4: `generate_recommendation` returns exactly the directive phrases of
the triggered rules, joined by the literal separator " | " in
rule-declaration order, and the fixed affirmation string when no rule
triggers; the triggered list is empty precisely when none of the nine
recommendation thresholds is crossed. -/
theorem generate_recommendation_rules (m : Metrics) :
    generate_recommendation m =
      (if specRecList m = [] then "Maintain current performance - you\x27re excelling!"
       else String.intercalate " | " (specRecList m)) ∧
    (specRecList m = [] ↔
      ¬ m.attendance < 75 ∧ ¬ m.marks < 70 ∧ ¬ m.mst_marks < 16 ∧ ¬ m.study_hours < 10 ∧
      ¬ m.assignments < 70 ∧ ¬ m.extracurriculars < 2 ∧ ¬ m.projects = 0 ∧
      ¬ m.certifications = 0 ∧ ¬ m.internships = 0) := by
  constructor
  · simp only [generate_recommendation, specRecList, List.isEmpty_iff]
  · simp only [specRecList, List.append_eq_nil, guard_eq_nil]
    tauto

/-- C5: on the exact-boundary vector no risk rule fires (all risk
comparisons are strict), so the risk score is the clamped probability
contribution alone and 0 when no map is given; yet the recommendation
marks rule (60 < 70) still fires, so `generate_recommendation` does not
return the affirmation string — the two rule sets are independent. -/
theorem boundary_vector_rule_independence :
    (calculate_risk boundaryVec none).1 = 0 ∧
    (calculate_risk boundaryVec none).2.2 =
      ["Great job! Maintain consistency to keep your performance high."] ∧
    (∀ d : List (String × ℚ), (calculate_risk boundaryVec (some d)).1 =
      min (max (dictGet d "D" * 1.0 + dictGet d "C" * 0.5) 0) 1) ∧
    boundaryVec.marks < 70 ∧
    generate_recommendation boundaryVec =
      "Focus on marks | Increase study time | Complete assignments" ∧
    generate_recommendation boundaryVec ≠ "Maintain current performance - you\x27re excelling!" := by
  refine ⟨?_, ?_, ?_, ?_, ?_, ?_⟩
  · norm_num [calculate_risk, boundaryVec, probTerm, risk_level]
  · norm_num [calculate_risk, boundaryVec, probTerm, risk_level]
  · intro d
    simp only [calculate_risk, probTerm_eq_spec]
    norm_num [boundaryVec]
  · norm_num [boundaryVec]
  · norm_num [generate_recommendation, boundaryVec]
    rfl
  · have h : generate_recommendation boundaryVec =
        "Focus on marks | Increase study time | Complete assignments" := by
      norm_num [generate_recommendation, boundaryVec]
      rfl
    rw [h]
    decide

/-- C6: the tips list returned by `calculate_risk` contains exactly the
tip strings of the threshold rules that fired, in fixed rule order and
uncapped (at most nine); when no rule fires it is exactly one
positive-reinforcement tip, so the returned list is never empty. -/
theorem calculate_risk_tips_exact (m : Metrics) (pm : Option (List (String × ℚ))) :
    (calculate_risk m pm).2.2 =
      (if specFiredTips m = [] then
        ["Great job! Maintain consistency to keep your performance high."]
       else specFiredTips m) ∧
    (specFiredTips m = [] ↔
      ¬ m.attendance < 75 ∧ ¬ m.marks < 60 ∧ ¬ m.mst_marks < 16 ∧ ¬ m.study_hours < 8 ∧
      ¬ m.assignments < 60 ∧ ¬ m.extracurriculars < 2 ∧ ¬ m.projects = 0 ∧
      ¬ m.certifications = 0 ∧ ¬ m.internships = 0) ∧
    (calculate_risk m pm).2.2 ≠ [] ∧
    ((calculate_risk m pm).2.2).length ≤ 9 := by
  have h1 : (calculate_risk m pm).2.2 =
      (if specFiredTips m = [] then
        ["Great job! Maintain consistency to keep your performance high."]
       else specFiredTips m) := by
    simp only [calculate_risk, specFiredTips, List.isEmpty_iff]
  refine ⟨h1, ?_, ?_, ?_⟩
  · simp only [specFiredTips, List.append_eq_nil, guard_eq_nil]
    tauto
  · rw [h1]
    split_ifs with h
    · simp
    · exact h
  · rw [h1]
    split_ifs with h
    · simp
    · simp only [specFiredTips, List.length_append]
      linarith [guard_length_le_one (m.attendance < 75)
          "Improve attendance to at least 85% for better outcomes.",
        guard_length_le_one (m.marks < 60) "Focus on core subjects to raise marks above 70%.",
        guard_length_le_one (m.mst_marks < 16)
          "MST performance is low. Schedule revision sessions weekly.",
        guard_length_le_one (m.study_hours < 8)
          "Increase study hours to at least 12-15 hours per week.",
        guard_length_le_one (m.assignments < 60) "Complete and revise assignments to boost score.",
        guard_length_le_one (m.extracurriculars < 2)
          "Engage in extracurricular activities for balance.",
        guard_length_le_one (m.projects = 0) "Complete project work to enhance practical skills.",
        guard_length_le_one (m.certifications = 0) "Earn certifications to boost your profile.",
        guard_length_le_one (m.internships = 0)
          "Consider internship opportunities for industry experience."]

/-- C7: with the classifier singleton state held fixed, `predict_grade`
is deterministic: calling it a second time with the identical vector and
the state left by the first call returns the identical grade and
probability map, and the cached model state does not change again. -/
theorem predict_grade_deterministic (env : Env) (st : Option Model) (m : Metrics) :
    (predict_grade env ((predict_grade env st m).2) m).1 = (predict_grade env st m).1 ∧
    (predict_grade env ((predict_grade env st m).2) m).2 = (predict_grade env st m).2 := by
  cases st <;> simp [predict_grade, ensure_model]

/-- C3: when the cached model carries the four grade labels and its
probability output for the feature row is a length-4 distribution summing
to 1 (the classifier contract), the probability map returned by
`predict_grade` has keys exactly A,B,C,D, its values sum to 1 (hence to
1.0 within 1e-6), and the returned grade — the argmax label — is one of
the four labels. -/
theorem predict_grade_distribution (env : Env) (mdl : Model) (m : Metrics)
    (hc : mdl.classes = ["A", "B", "C", "D"])
    (hl : (mdl.proba (featureRow m)).length = 4)
    (hs : (mdl.proba (featureRow m)).sum = 1) :
    ((predict_grade env (some mdl) m).1.2).map Prod.fst = ["A", "B", "C", "D"] ∧
    (((predict_grade env (some mdl) m).1.2).map Prod.snd).sum = 1 ∧
    |(((predict_grade env (some mdl) m).1.2).map Prod.snd).sum - 1| ≤ 1e-6 ∧
    ((predict_grade env (some mdl) m).1.1 = "A" ∨ (predict_grade env (some mdl) m).1.1 = "B" ∨
     (predict_grade env (some mdl) m).1.1 = "C" ∨ (predict_grade env (some mdl) m).1.1 = "D") := by
  have hcl : mdl.classes.length = 4 := by rw [hc]; rfl
  have hkeys : ((predict_grade env (some mdl) m).1.2).map Prod.fst = ["A", "B", "C", "D"] := by
    show (mdl.classes.zip (mdl.proba (featureRow m))).map Prod.fst = ["A", "B", "C", "D"]
    rw [List.map_fst_zip _ _ (by rw [hcl, hl])]
    exact hc
  have hsum : (((predict_grade env (some mdl) m).1.2).map Prod.snd).sum = 1 := by
    show ((mdl.classes.zip (mdl.proba (featureRow m))).map Prod.snd).sum = 1
    rw [List.map_snd_zip _ _ (by rw [hcl, hl])]
    exact hs
  refine ⟨hkeys, hsum, ?_, ?_⟩
  · rw [hsum]
    norm_num
  · have hne : mdl.proba (featureRow m) ≠ [] := by
      intro hnil
      rw [hnil] at hl
      simp at hl
    have hlt : argmaxIdx (mdl.proba (featureRow m)) < mdl.classes.length := by
      rw [hcl, ← hl]
      exact argmaxIdx_lt _ hne
    have hmem : (predict_grade env (some mdl) m).1.1 ∈ mdl.classes := by
      show mdl.classes.getD (argmaxIdx (mdl.proba (featureRow m))) "" ∈ mdl.classes
      rw [List.getD_eq_getElem _ _ hlt]
      exact List.getElem_mem hlt
    rw [hc] at hmem
    simpa using hmem

/-- C3 witness: the classifier-contract hypotheses hold for a concrete
uniform four-class model, and the conclusions follow on a concrete
vector. -/
theorem predict_grade_distribution_witness :
    (constModel.classes = ["A", "B", "C", "D"] ∧
     (constModel.proba (featureRow boundaryVec)).length = 4 ∧
     (constModel.proba (featureRow boundaryVec)).sum = 1) ∧
    (((predict_grade constEnv (some constModel) boundaryVec).1.2).map Prod.fst =
        ["A", "B", "C", "D"] ∧
     (((predict_grade constEnv (some constModel) boundaryVec).1.2).map Prod.snd).sum = 1 ∧
     |(((predict_grade constEnv (some constModel) boundaryVec).1.2).map Prod.snd).sum - 1|
        ≤ 1e-6 ∧
     ((predict_grade constEnv (some constModel) boundaryVec).1.1 = "A" ∨
      (predict_grade constEnv (some constModel) boundaryVec).1.1 = "B" ∨
      (predict_grade constEnv (some constModel) boundaryVec).1.1 = "C" ∨
      (predict_grade constEnv (some constModel) boundaryVec).1.1 = "D")) :=
  ⟨⟨rfl, rfl, by norm_num [constModel]⟩,
   predict_grade_distribution constEnv constModel boundaryVec rfl rfl
     (by norm_num [constModel])⟩

/-- C8: the synthetic dataset generator is deterministic given its seed:
with the numpy draw interface fixed (its calls are functions of the seeded
generator state), equal seeds yield identical feature and label arrays. -/
theorem generate_synthetic_deterministic (api : NumpyApi) (n : ℕ) (s1 s2 : ℤ)
    (h : s1 = s2) :
    _generate_synthetic_dataset api n s1 = _generate_synthetic_dataset api n s2 := by
  rw [h]

/-- C8 witness: instantiated at a concrete draw interface, n = 2 and
seed 42. -/
theorem generate_synthetic_deterministic_witness :
    (42 : ℤ) = 42 ∧
    _generate_synthetic_dataset constApi 2 42 = _generate_synthetic_dataset constApi 2 42 :=
  ⟨rfl, generate_synthetic_deterministic constApi 2 42 42 rfl⟩

/-- C9 counterexample: `allDMap` is a legitimate probability map over the
four grade labels (keys exactly A,B,C,D, values in [0,1] summing to 1),
yet on the scenario-1 excellent vector `calculate_risk` returns risk
level High, refuting "Low or Medium, never High" for every probability
map. -/
theorem excellent_vector_high_counterexample :
    allDMap.map Prod.fst = ["A", "B", "C", "D"] ∧
    (allDMap.map Prod.snd).sum = 1 ∧
    (∀ p ∈ allDMap.map Prod.snd, 0 ≤ p ∧ p ≤ 1) ∧
    (calculate_risk excellentVec (some allDMap)).2.1 = "High" := by
  refine ⟨rfl, by norm_num [allDMap], ?_, ?_⟩
  · intro p hp
    simp [allDMap] at hp
    rcases hp with h | h <;> norm_num [h]
  · norm_num [calculate_risk, excellentVec, allDMap, probTerm, dictGet, risk_level]
    simp
    norm_num

/-- C9 amended: on the excellent vector no threshold rule fires, so the
risk score is exactly the clamped probability contribution, and the risk
level is Low or Medium whenever P(D)*1.0 + P(C)*0.5 stays below 0.7; a
probability map with weight at least 0.7 on that term does produce High,
which the original claim ruled out. -/
theorem excellent_vector_risk_amended (d : List (String × ℚ)) :
    (calculate_risk excellentVec (some d)).1 =
      min (max (dictGet d "D" * 1.0 + dictGet d "C" * 0.5) 0) 1 ∧
    (dictGet d "D" * 1.0 + dictGet d "C" * 0.5 < 0.7 →
      (calculate_risk excellentVec (some d)).2.1 = "Low" ∨
      (calculate_risk excellentVec (some d)).2.1 = "Medium") := by
  have heq : (calculate_risk excellentVec (some d)).1 =
      min (max (dictGet d "D" * 1.0 + dictGet d "C" * 0.5) 0) 1 := by
    simp only [calculate_risk, probTerm_eq_spec]
    norm_num [excellentVec]
  refine ⟨heq, fun hlt => ?_⟩
  have hr7 : (calculate_risk excellentVec (some d)).1 < 0.7 := by
    rw [heq]
    exact lt_of_le_of_lt (min_le_left _ _) (max_lt hlt (by norm_num))
  have hlv : (calculate_risk excellentVec (some d)).2.1 =
      risk_level ((calculate_risk excellentVec (some d)).1) := rfl
  rw [hlv]
  unfold risk_level
  split_ifs with a
  · exact Or.inl rfl
  · exact Or.inr rfl

/-- C9 amended witness: a concrete probability map far from grade D keeps
the risk level at Low or Medium. -/
theorem excellent_vector_risk_amended_witness :
    dictGet goodMap "D" * 1.0 + dictGet goodMap "C" * 0.5 < 0.7 ∧
    ((calculate_risk excellentVec (some goodMap)).2.1 = "Low" ∨
     (calculate_risk excellentVec (some goodMap)).2.1 = "Medium") :=
  ⟨by simp [goodMap, dictGet]; norm_num,
   (excellent_vector_risk_amended goodMap).2 (by simp [goodMap, dictGet]; norm_num)⟩

/-- C10: with no probability map, the risk score of `calculate_risk` is
monotonically non-increasing in every metric: raising any fields
pointwise (with the count fields non-negative, as the data model
declares) never increases the returned risk score; increasing a single
field with the other eight fixed is the special case of the pointwise
order. -/
theorem calculate_risk_antitone (m m' : Metrics) (hle : metricsLE m m')
    (hp : 0 ≤ m.projects) (hcf : 0 ≤ m.certifications) (hi : 0 ≤ m.internships) :
    (calculate_risk m' none).1 ≤ (calculate_risk m none).1 := by
  obtain ⟨h1, h2, h3, h4, h5, h6, h7, h8, h9⟩ := hle
  simp only [calculate_risk, probTerm]
  apply min_le_min _ le_rfl
  apply max_le_max _ le_rfl
  have a1 := ite_thr_anti 75 (by norm_num : (0:ℚ) ≤ 0.20) h1
  have a2 := ite_thr_anti 60 (by norm_num : (0:ℚ) ≤ 0.25) h2
  have a3 := ite_thr_anti 16 (by norm_num : (0:ℚ) ≤ 0.20) h3
  have a4 := ite_thr_anti 8 (by norm_num : (0:ℚ) ≤ 0.10) h4
  have a5 := ite_thr_anti 60 (by norm_num : (0:ℚ) ≤ 0.15) h5
  have a6 := ite_thr_anti 2 (by norm_num : (0:ℚ) ≤ 0.05) h6
  have b1 := ite_zero_anti (by norm_num : (0:ℚ) ≤ 0.10) hp h7
  have b2 := ite_zero_anti (by norm_num : (0:ℚ) ≤ 0.08) hcf h8
  have b3 := ite_zero_anti (by norm_num : (0:ℚ) ≤ 0.07) hi h9
  linarith

/-- C10 witness: raising every field from the all-zero vector to a high
vector lowers the risk score (from 1 to 0). -/
theorem calculate_risk_antitone_witness :
    metricsLE ⟨0, 0, 0, 0, 0, 0, 0, 0, 0⟩ ⟨100, 100, 40, 20, 100, 5, 3, 2, 1⟩ ∧
    (0 : ℤ) ≤ (⟨0, 0, 0, 0, 0, 0, 0, 0, 0⟩ : Metrics).projects ∧
    (0 : ℤ) ≤ (⟨0, 0, 0, 0, 0, 0, 0, 0, 0⟩ : Metrics).certifications ∧
    (0 : ℤ) ≤ (⟨0, 0, 0, 0, 0, 0, 0, 0, 0⟩ : Metrics).internships ∧
    (calculate_risk ⟨100, 100, 40, 20, 100, 5, 3, 2, 1⟩ none).1 ≤
      (calculate_risk ⟨0, 0, 0, 0, 0, 0, 0, 0, 0⟩ none).1 :=
  ⟨by norm_num [metricsLE], by norm_num, by norm_num, by norm_num,
   calculate_risk_antitone ⟨0, 0, 0, 0, 0, 0, 0, 0, 0⟩ ⟨100, 100, 40, 20, 100, 5, 3, 2, 1⟩
     (by norm_num [metricsLE]) (by norm_num) (by norm_num) (by norm_num)⟩

end EduTrack
